import Mathlib

/-!
Shallow embedding of the open-data-api repository (FastAPI + SQLAlchemy).

`src/main.py` defines the HTTP handlers: each one calls a service-layer
query, JSON-encodes the resulting row sequence and shapes the response.
`src/app/services/monument.py` defines the one SQL query present in the
sources: a CTE that string-aggregates monument reasons, LEFT JOINed to
the monuments table.

Handlers are embedded as functions from the row sequence the service
returned to an `HttpResult`; the SQL query is embedded as a function on
lists of rows mirroring the relational operators it uses (filter, join,
group-by with string_agg, left join).
-/

/-- Outcome of one HTTP request, as produced by a handler in `main.py`:
a 200 response with a body, an `HTTPException` raised with a status code
and detail message, or a Python exception that the handler does not
catch (the framework turns it into a 500, not a JSON 404). -/
inductive HttpResult (α : Type) where
  | ok (body : α)
  | httpError (status : Nat) (detail : String)
  | unhandled (exception : String)
deriving DecidableEq

/-- Row of the `districts` table as the service layer returns it
(attributes `id` and `name`, used by `get_district` / `get_districts`). -/
structure DistrictRow where
  id : Int
  name : String
deriving DecidableEq

/-- The `schemas.District` response schema (fields `district_id`,
`district_name`). -/
structure District where
  district_id : Int
  district_name : String
deriving DecidableEq

/-- The JSON body FastAPI serializes for the district-by-id endpoint:
either a bare JSON object for one district or a JSON array of district
objects. `main.py` builds a one-element Python list, which serializes as
an array. -/
inductive DistrictBody where
  | objBody (d : District)
  | arrBody (ds : List District)
deriving DecidableEq

/-- A row of a residents-by-district series (attributes `year`,
`district_id`, `residents`). -/
structure ResidentsRow where
  year : Int
  district_id : Int
  residents : Int
deriving DecidableEq

/-- The `schemas.ResidentsByDistrict` response schema. -/
structure ResidentsByDistrict where
  year : Int
  district_id : Int
  residents : Int
deriving DecidableEq

/-- Handler `get_parcel_meta` of `main.py` after the service call: `response[0]`
inside `try`, `IndexError` caught and re-raised as 404. -/
def get_parcel_meta {α : Type} (rows : List α) : HttpResult α :=
  match rows with
  | [] => .httpError 404 "Not found"
  | r :: _ => .ok r

/-- Handler `get_biotop_meta` of `main.py`: `response[0]` inside `try`,
`IndexError` caught and re-raised as 404. -/
def get_biotop_meta {α : Type} (rows : List α) : HttpResult α :=
  match rows with
  | [] => .httpError 404 "Not found"
  | r :: _ => .ok r

/-- Handler `get_biotop_origin` of `main.py`: `response[0]` inside `try`,
`IndexError` caught and re-raised as 404. -/
def get_biotop_origin {α : Type} (rows : List α) : HttpResult α :=
  match rows with
  | [] => .httpError 404 "Not found"
  | r :: _ => .ok r

/-- Handler `get_monuments` of `main.py`: returns `monuments[0]` with no `try`
block, so an empty row list raises an uncaught `IndexError`. -/
def get_monuments {α : Type} (rows : List α) : HttpResult α :=
  match rows with
  | [] => .unhandled "IndexError"
  | r :: _ => .ok r

/-- Handler `get_accident_meta` of `main.py`: returns `result[0]` with no `try`
block, so an empty row list raises an uncaught `IndexError`. -/
def get_accident_meta {α : Type} (rows : List α) : HttpResult α :=
  match rows with
  | [] => .unhandled "IndexError"
  | r :: _ => .ok r

/-- Handler `get_accident_details_by_city` of `main.py`: returns `result[0]` with
no `try` block, so an empty row list raises an uncaught `IndexError`. -/
def get_accident_details_by_city {α : Type} (rows : List α) : HttpResult α :=
  match rows with
  | [] => .unhandled "IndexError"
  | r :: _ => .ok r

/-- Handler `get_district_details` of `main.py`: returns `result[0]` with no `try`
block, so an empty row list raises an uncaught `IndexError`. -/
def get_district_details {α : Type} (rows : List α) : HttpResult α :=
  match rows with
  | [] => .unhandled "IndexError"
  | r :: _ => .ok r

/-- Handler `get_district` of `main.py`: the service returns one row or `None`;
the handler builds the one-element list `[schema(district_id=row.id,
district_name=row.name)]`, catching the `AttributeError` raised by
`None.id` and re-raising it as 404. -/
def get_district (row : Option DistrictRow) : HttpResult DistrictBody :=
  match row with
  | none => .httpError 404 "Not found"
  | some r => .ok (.arrBody [⟨r.id, r.name⟩])

/-- Handler `get_districts` of `main.py`: maps every returned row to a
`schemas.District` and returns the list (status 200, a JSON array). -/
def get_districts (rows : List DistrictRow) : HttpResult (List District) :=
  .ok (rows.map fun r => ⟨r.id, r.name⟩)

/-- Handler `get_residents_by_district` of `main.py`: maps every returned row to a
`schemas.ResidentsByDistrict` and returns the list (status 200, a JSON
array). -/
def get_residents_by_district (rows : List ResidentsRow) :
    HttpResult (List ResidentsByDistrict) :=
  .ok (rows.map fun r => ⟨r.year, r.district_id, r.residents⟩)

/-- A caller-supplied parameter value, kept as data (an integer id, a
coordinate, or a free-text string such as a city match). -/
inductive SqlParam where
  | pint (n : Int)
  | pnum (q : Rat)
  | pstr (s : String)
deriving DecidableEq

/-- A SQL statement after parameter binding: the statement text plus the
bound parameters, carried separately as data (SQLAlchemy `bindparams`).
The driver never splices `params` into `text`. -/
structure BoundStatement where
  text : String
  params : List (String × SqlParam)
deriving DecidableEq

/-- The SQL template of `get_monument_by_object_id`
(`src/app/services/monument.py`), a fixed string literal with the single
named placeholder `:q`. -/
def monument_sql_text : String :=
  "\n    WITH monument_reasons AS (\n        SELECT\n            mxr.monument_id,\n            string_agg(mr.label, \x27, \x27) AS reason_labels\n        FROM\n            sh_monument_x_reason AS mxr\n        JOIN\n            sh_monument_reason AS mr\n        ON\n            mxr.reason_id = mr.id\n        GROUP BY\n            mxr.monument_id\n    )\n    SELECT\n        ST_AsGeoJSON(m.wkb_geometry, 15)::jsonb AS geojson,\n        m.object_id,\n        m.street,\n        m.housenumber,\n        m.postcode,\n        m.city,\n        m.image_url,\n        m.designation,\n        m.description,\n        m.monument_type,\n        r.reason_labels AS monument_reason\n    FROM\n        sh_monuments AS m\n    LEFT JOIN\n        monument_reasons AS r\n    ON\n        m.id = r.monument_id\n    WHERE\n        m.id = :q\n    "

/-- Binding step `stmt.bindparams(q=object_id)` of `get_monument_by_object_id`: the
value is attached to the placeholder name `q`; the text is untouched. -/
def monument_stmt (object_id : Int) : BoundStatement :=
  ⟨monument_sql_text, [("q", .pint object_id)]⟩

/-- Modelled from the spec: the service module (`service.py`, imported
by `main.py` but not under `src/`) builds every other query the same
way — a fixed SQL template with named placeholders, caller parameters
bound by name and never concatenated into the SQL text. -/
structure ServiceQuery where
  template : String

/-- Modelled from the spec: binding caller parameters into a service
query attaches them as data; the statement text stays the template. -/
def service_bind (sq : ServiceQuery) (ps : List (String × SqlParam)) :
    BoundStatement :=
  ⟨sq.template, ps⟩

/-- Modelled from the spec: `service.get_district` (in the absent
`service.py`) is a singular lookup whose mapper takes the first row of
the result sequence, or signals the no-row case with `None`. -/
def service_get_district (rows : List DistrictRow) : Option DistrictRow :=
  rows.head?

/-- A row of `sh_monuments`. -/
structure MonumentRow where
  id : Int
  object_id : Int
  street : Option String
  housenumber : Option String
  postcode : Option String
  city : Option String
  image_url : Option String
  designation : Option String
  description : Option String
  monument_type : Option String
  wkb_geometry : List (Rat × Rat)
deriving DecidableEq

/-- A row of the relation table `sh_monument_x_reason`. -/
structure MonumentXReasonRow where
  monument_id : Int
  reason_id : Int
deriving DecidableEq

/-- A row of `sh_monument_reason`. -/
structure MonumentReasonRow where
  id : Int
  label : String
deriving DecidableEq

/-- The tables the monument query reads, in their physical row order. -/
structure MonumentDB where
  sh_monuments : List MonumentRow
  sh_monument_x_reason : List MonumentXReasonRow
  sh_monument_reason : List MonumentReasonRow
deriving DecidableEq

/-- Value of type `jsonb` produced by `ST_AsGeoJSON`: a GeoJSON geometry
with its coordinate list. -/
structure GeoJSON where
  coordinates : List (Rat × Rat)
deriving DecidableEq

/-- Floor of a rational, computed on the normalized representation. -/
def ratFloorZ (x : Rat) : Int :=
  x.num.fdiv (x.den : Int)

/-- Round a coordinate to `p` decimal digits (the `maxdecimaldigits`
argument of `ST_AsGeoJSON`). -/
def roundCoord (p : Nat) (x : Rat) : Rat :=
  (ratFloorZ (x * 10 ^ p + 1 / 2) : Rat) / 10 ^ p

/-- PostGIS `ST_AsGeoJSON(geom, p)`: serialize a geometry to GeoJSON with
coordinates rounded to `p` decimal digits. -/
def ST_AsGeoJSON (geom : List (Rat × Rat)) (p : Nat) : GeoJSON :=
  ⟨geom.map fun c => (roundCoord p c.1, roundCoord p c.2)⟩

/-- One result row of the monument query: the SELECT list of
`get_monument_by_object_id`. -/
structure MonumentOut where
  geojson : GeoJSON
  object_id : Int
  street : Option String
  housenumber : Option String
  postcode : Option String
  city : Option String
  image_url : Option String
  designation : Option String
  description : Option String
  monument_type : Option String
  monument_reason : Option String
deriving DecidableEq

/-- Build one SELECT-list row from a monument row and the (possibly
NULL) aggregated reason string. -/
def mkMonumentOut (m : MonumentRow) (reason : Option String) : MonumentOut :=
  ⟨ST_AsGeoJSON m.wkb_geometry 15, m.object_id, m.street, m.housenumber,
   m.postcode, m.city, m.image_url, m.designation, m.description,
   m.monument_type, reason⟩

/-- PostgreSQL string_agg with the comma-space separator, applied to
the labels of one group, in
the order the rows arrive (the query has no ORDER BY inside the
aggregate). -/
def string_agg_comma (ls : List String) : String :=
  String.intercalate ", " ls

/-- The inner JOIN of the CTE: `sh_monument_x_reason JOIN
sh_monument_reason ON mxr.reason_id = mr.id`, projected to
`(monument_id, label)` pairs. -/
def joinReasons (mxr : List MonumentXReasonRow)
    (mr : List MonumentReasonRow) : List (Int × String) :=
  mxr.flatMap fun x =>
    (mr.filter fun r => r.id = x.reason_id).map fun r => (x.monument_id, r.label)

/-- The CTE `monument_reasons`: GROUP BY `monument_id` with
string_agg of the labels per group. Grouping keys are the distinct
`monument_id` values of the joined rows. -/
def monument_reasons (mxr : List MonumentXReasonRow)
    (mr : List MonumentReasonRow) : List (Int × String) :=
  let j := joinReasons mxr mr
  ((j.map Prod.fst).dedup).map fun k =>
    (k, string_agg_comma ((j.filter fun p => p.1 = k).map Prod.snd))

/-- Outer query join `sh_monuments LEFT JOIN monument_reasons ON m.id =
r.monument_id`:
every monument row is kept; a row with no match on the right gets a
NULL `reason_labels`. -/
def leftJoinReasons (ms : List MonumentRow) (rs : List (Int × String)) :
    List (MonumentRow × Option String) :=
  ms.flatMap fun m =>
    let hits := rs.filter fun r => r.1 = m.id
    if hits.isEmpty then [(m, none)]
    else hits.map fun r => (m, some r.2)

/-- Query `get_monument_by_object_id` (`src/app/services/monument.py`): filter
`sh_monuments` by `m.id = :q`, LEFT JOIN the aggregated reasons, and
project each row to the SELECT list. -/
def get_monument_by_object_id (db : MonumentDB) (q : Int) :
    List MonumentOut :=
  (leftJoinReasons (db.sh_monuments.filter fun m => m.id = q)
      (monument_reasons db.sh_monument_x_reason db.sh_monument_reason)).map
    fun pr => mkMonumentOut pr.1 pr.2

/-- The reason labels joined to a given monument id, in physical row
order of the relation table. -/
def reasonLabelsFor (db : MonumentDB) (mid : Int) : List String :=
  ((joinReasons db.sh_monument_x_reason db.sh_monument_reason).filter
    fun p => p.1 = mid).map Prod.snd

/-- The aggregated `monument_reason` value for a monument id: NULL when
the monument has no joined reason rows, otherwise the `string_agg`
string. -/
def monumentReasonAgg (db : MonumentDB) (mid : Int) : Option String :=
  match reasonLabelsFor db mid with
  | [] => none
  | ls => some (string_agg_comma ls)

/-- Monument used in the row-order experiment. -/
def permMonument : MonumentRow :=
  ⟨1, 100, none, none, none, none, none, none, none, none, []⟩

/-- Snapshot with the relation rows in one physical order. -/
def permDB1 : MonumentDB :=
  ⟨[permMonument], [⟨1, 10⟩, ⟨1, 20⟩],
   [⟨10, "Reason one"⟩, ⟨20, "Reason two"⟩]⟩

/-- The same snapshot with the two relation rows swapped. -/
def permDB2 : MonumentDB :=
  ⟨[permMonument], [⟨1, 20⟩, ⟨1, 10⟩],
   [⟨10, "Reason one"⟩, ⟨20, "Reason two"⟩]⟩

/-- Monument with two reason rows, the end-to-end aggregation example. -/
def fireMonument : MonumentRow :=
  ⟨1, 100, some "Musterstrasse", some "1", some "24103", some "Kiel",
   none, none, none, some "Baudenkmal", [(10, 54)]⟩

/-- Snapshot for the aggregation example: one monument, two reasons. -/
def dbC4 : MonumentDB :=
  ⟨[fireMonument], [⟨1, 7⟩, ⟨1, 8⟩],
   [⟨7, "Fire damage"⟩, ⟨8, "Historic facade"⟩]⟩

/-- The expected single output row of the aggregation example. -/
def outC4 : MonumentOut :=
  mkMonumentOut fireMonument (some "Fire damage, Historic facade")

/-- Monument with no reason rows at all. -/
def lonelyMonument : MonumentRow :=
  ⟨2, 200, none, none, none, none, none, none, none, none, []⟩

/-- Snapshot whose only monument joins zero relation rows. -/
def dbC10 : MonumentDB :=
  ⟨[lonelyMonument], [], [⟨7, "Unused"⟩]⟩

/-- Monument carrying a nontrivial geometry. -/
def geoMonument : MonumentRow :=
  ⟨3, 300, none, none, none, none, none, none, none, none, [(10, 54)]⟩

/-- Snapshot for the GeoJSON serialization example. -/
def dbC8 : MonumentDB :=
  ⟨[geoMonument], [], []⟩

/-- A schema-management action run against the engine connection. -/
inductive SchemaAction where
  | drop_all
  | create_all
deriving DecidableEq

/-- Function `init_schemas` of `main.py`: within one engine transaction,
run `Base.metadata.drop_all`, then `Base.metadata.create_all`. -/
def init_schemas : List SchemaAction :=
  [.drop_all, .create_all]

/-- One event in the life of the server process: a startup schema
action, or serving one request. -/
inductive ProcessEvent where
  | schema (a : SchemaAction)
  | serve (request : Nat)
deriving DecidableEq

/-- The FastAPI startup hook (`@app.on_event` with the startup event in
`main.py`) runs `init_schemas` to completion before any request is
served. -/
def process_run (requests : List Nat) : List ProcessEvent :=
  init_schemas.map ProcessEvent.schema ++ requests.map ProcessEvent.serve

/-- Filtering key-tagged pairs by their key commutes with the tagging
map. -/
theorem filter_tag_eq {β : Type} (l : List Int) (f : Int → β) (k : Int) :
    ((l.map fun x => (x, f x)).filter fun p => p.1 = k) =
      (l.filter fun x => x = k).map fun x => (x, f x) := by
  rw [List.filter_map]
  rfl

/-- Over a duplicate-free key list, filtering for one key yields that
key once when present and nothing otherwise. -/
theorem nodup_filter_key (k : Int) :
    ∀ l : List Int, l.Nodup →
      (l.filter fun x => x = k) = if k ∈ l then [k] else [] := by
  intro l hl
  induction l with
  | nil => simp
  | cons a t ih =>
    rw [List.nodup_cons] at hl
    by_cases h : a = k
    · subst h
      have ht : (t.filter fun x => x = a) = [] :=
        List.filter_eq_nil_iff.mpr fun x hx => by
          simp only [decide_eq_true_eq]
          exact fun e => hl.1 (e ▸ hx)
      rw [List.filter_cons_of_pos (by simp), ht,
        if_pos (List.mem_cons_self a t)]
    · rw [List.filter_cons_of_neg (by simp [h]), ih hl.2]
      simp [List.mem_cons, Ne.symm h]

/-- The joined rows carrying key `k` are absent exactly when `k` is not
among the join keys. -/
theorem filter_key_nil_iff (j : List (Int × String)) (k : Int) :
    ((j.filter fun p => p.1 = k) = []) ↔ k ∉ j.map Prod.fst := by
  simp only [List.filter_eq_nil_iff, decide_eq_true_eq, List.mem_map,
    not_exists, not_and]

/-- The CTE keeps at most one group per monument id: filtering it for a
key yields either nothing (the key joins no reason rows) or the single
aggregated group for that key. -/
theorem monument_reasons_filter (mxr : List MonumentXReasonRow)
    (mr : List MonumentReasonRow) (k : Int) :
    ((monument_reasons mxr mr).filter fun p => p.1 = k) =
      if ((joinReasons mxr mr).filter fun p => p.1 = k) = [] then []
      else [(k, string_agg_comma (((joinReasons mxr mr).filter
        fun p => p.1 = k).map Prod.snd))] := by
  simp only [monument_reasons]
  rw [filter_tag_eq, nodup_filter_key k _ (List.nodup_dedup _)]
  by_cases h : ((joinReasons mxr mr).filter fun p => p.1 = k) = []
  · have hk : k ∉ (joinReasons mxr mr).map Prod.fst :=
      (filter_key_nil_iff _ _).mp h
    rw [if_neg (fun hin => hk (List.mem_dedup.mp hin)), if_pos h]
    rfl
  · have hk : k ∈ (joinReasons mxr mr).map Prod.fst := by
      by_contra hc
      exact h ((filter_key_nil_iff _ _).mpr hc)
    rw [if_pos (List.mem_dedup.mpr hk), if_neg h]
    rfl

/-- Restate the single aggregated group for a monument id through
`monumentReasonAgg`. -/
theorem hits_eq (db : MonumentDB) (mid : Int) :
    ((monument_reasons db.sh_monument_x_reason
        db.sh_monument_reason).filter fun r => r.1 = mid) =
      match monumentReasonAgg db mid with
      | none => []
      | some s => [(mid, s)] := by
  rw [monument_reasons_filter]
  simp only [monumentReasonAgg, reasonLabelsFor]
  by_cases h : ((joinReasons db.sh_monument_x_reason
      db.sh_monument_reason).filter fun p => p.1 = mid) = []
  · rw [if_pos h, h]
    rfl
  · rw [if_neg h]
    cases hls : ((joinReasons db.sh_monument_x_reason
        db.sh_monument_reason).filter fun p => p.1 = mid) with
    | nil => exact absurd hls h
    | cons a t => simp

/-- The LEFT JOIN against the grouped CTE produces exactly one output
row per monument row, carrying that monument's aggregated reason. -/
theorem leftJoin_agg (db : MonumentDB) (ms : List MonumentRow) :
    (leftJoinReasons ms (monument_reasons db.sh_monument_x_reason
        db.sh_monument_reason)).map (fun pr => mkMonumentOut pr.1 pr.2) =
      ms.map fun m => mkMonumentOut m (monumentReasonAgg db m.id) := by
  induction ms with
  | nil => rfl
  | cons m t ih =>
    simp only [leftJoinReasons, List.flatMap_cons, List.map_append,
      List.map_cons] at ih ⊢
    rw [hits_eq db m.id]
    cases h : monumentReasonAgg db m.id with
    | none => simpa using ih
    | some s => simpa using ih

/-- Characterization of `get_monument_by_object_id`: one SELECT-list
row per monument matching the WHERE clause, its `monument_reason` being
the aggregated label string (or NULL). -/
theorem get_monument_char (db : MonumentDB) (q : Int) :
    get_monument_by_object_id db q =
      (db.sh_monuments.filter fun m => m.id = q).map
        fun m => mkMonumentOut m (monumentReasonAgg db m.id) := by
  unfold get_monument_by_object_id
  exact leftJoin_agg db _

/-- Permuting the relation table permutes the joined rows. -/
theorem joinReasons_perm {mxr mxr' : List MonumentXReasonRow}
    (mr : List MonumentReasonRow) (hp : mxr.Perm mxr') :
    (joinReasons mxr mr).Perm (joinReasons mxr' mr) := by
  unfold joinReasons
  exact hp.flatMap_right _

/-- Permuting the relation table permutes each monument's reason-label
list (the multiset of labels per monument is invariant). -/
theorem reasonLabels_perm (db db' : MonumentDB) (mid : Int)
    (hr : db'.sh_monument_reason = db.sh_monument_reason)
    (hp : db'.sh_monument_x_reason.Perm db.sh_monument_x_reason) :
    (reasonLabelsFor db' mid).Perm (reasonLabelsFor db mid) := by
  unfold reasonLabelsFor
  rw [hr]
  exact ((joinReasons_perm db.sh_monument_reason hp).filter _).map _

/-- C1: the claim says every singular endpoint answers zero rows with a
404 not-found response. The handlers with a try/except do (parcel,
biotope point, biotope origin, district by id), but `get_monuments`,
`get_accident_meta`, `get_accident_details_by_city` and
`get_district_details` index `[0]` with no try block: zero rows raises
an uncaught `IndexError` instead of a 404. This theorem evaluates each
handler on the empty result. -/
theorem singular_zero_rows_behavior :
    get_parcel_meta ([] : List Nat) = .httpError 404 "Not found" ∧
    get_biotop_meta ([] : List Nat) = .httpError 404 "Not found" ∧
    get_biotop_origin ([] : List Nat) = .httpError 404 "Not found" ∧
    get_district (none : Option DistrictRow) = .httpError 404 "Not found" ∧
    get_monuments ([] : List Nat) = .unhandled "IndexError" ∧
    get_accident_meta ([] : List Nat) = .unhandled "IndexError" ∧
    get_accident_details_by_city ([] : List Nat) = .unhandled "IndexError" ∧
    get_district_details ([] : List Nat) = .unhandled "IndexError" ∧
    get_monuments ([] : List Nat) ≠ .httpError 404 "Not found" :=
  ⟨rfl, rfl, rfl, rfl, rfl, rfl, rfl, rfl, by decide⟩

/-- C2 counterexample: with district 3 named Altstadt present, the
district-by-id handler responds 200 with the one-element JSON array
wrapping the district object, not with the bare object the claim
states. -/
theorem district_by_id_returns_array_not_object :
    get_district (some ⟨3, "Altstadt"⟩) =
        .ok (.arrBody [⟨3, "Altstadt"⟩]) ∧
      get_district (some ⟨3, "Altstadt"⟩) ≠
        .ok (.objBody ⟨3, "Altstadt"⟩) :=
  ⟨rfl, by decide⟩

/-- C2 (amended): when the district row exists, the district-by-id
endpoint returns status 200 whose body is the one-element JSON array
containing the district object; for district 3 named Altstadt that body
is the array holding the object with district_id 3 and district_name
Altstadt. -/
theorem district_by_id_ok_shape :
    (∀ r : DistrictRow,
        get_district (some r) = .ok (.arrBody [⟨r.id, r.name⟩])) ∧
      get_district (some ⟨3, "Altstadt"⟩) =
        .ok (.arrBody [⟨3, "Altstadt"⟩]) :=
  ⟨fun _ => rfl, rfl⟩

/-- C3 counterexample: two snapshots identical except for the physical
order of the two `sh_monument_x_reason` rows give different query
results — `string_agg` has no ORDER BY, so the concatenated label
string follows the physical row order. -/
theorem monument_agg_order_dependent :
    permDB2.sh_monuments = permDB1.sh_monuments ∧
    permDB2.sh_monument_reason = permDB1.sh_monument_reason ∧
    permDB2.sh_monument_x_reason.Perm permDB1.sh_monument_x_reason ∧
    get_monument_by_object_id permDB2 1 ≠ get_monument_by_object_id permDB1 1 :=
  ⟨rfl, rfl, by decide, by decide⟩

/-- C3 (amended): repeated executions on a fixed snapshot return the
same result (the query is a function of the snapshot); permuting the
physical row order of `sh_monument_x_reason` preserves the number of
output rows and the multiset of reason labels of every monument, but
the order of labels inside the concatenated string may change. -/
theorem monument_query_perm_invariance (db db' : MonumentDB) (q mid : Int)
    (hm : db'.sh_monuments = db.sh_monuments)
    (hr : db'.sh_monument_reason = db.sh_monument_reason)
    (hp : db'.sh_monument_x_reason.Perm db.sh_monument_x_reason) :
    (get_monument_by_object_id db' q).length =
        (get_monument_by_object_id db q).length ∧
      (reasonLabelsFor db' mid).Perm (reasonLabelsFor db mid) := by
  constructor
  · rw [get_monument_char, get_monument_char, List.length_map,
      List.length_map, hm]
  · exact reasonLabels_perm db db' mid hr hp

/-- Witness for the amended C3 theorem at the two concrete snapshots. -/
theorem monument_query_perm_invariance_witness :
    (permDB2.sh_monuments = permDB1.sh_monuments ∧
     permDB2.sh_monument_reason = permDB1.sh_monument_reason ∧
     permDB2.sh_monument_x_reason.Perm permDB1.sh_monument_x_reason) ∧
    ((get_monument_by_object_id permDB2 1).length =
        (get_monument_by_object_id permDB1 1).length ∧
      (reasonLabelsFor permDB2 1).Perm (reasonLabelsFor permDB1 1)) :=
  ⟨⟨rfl, rfl, by decide⟩,
   monument_query_perm_invariance permDB1 permDB2 1 1 rfl rfl (by decide)⟩

/-- C4: the monument query returns exactly one output row per monument
row matching the WHERE clause, and every output row carries the
aggregated reason string of its monument (the labels joined by the
fixed comma-space separator inside `monumentReasonAgg`). -/
theorem monument_agg_single_row (db : MonumentDB) (q : Int) :
    (get_monument_by_object_id db q).length =
        (db.sh_monuments.filter fun m => m.id = q).length ∧
      ∀ out ∈ get_monument_by_object_id db q,
        ∃ m, m ∈ db.sh_monuments ∧ m.id = q ∧
          out = mkMonumentOut m (monumentReasonAgg db m.id) := by
  constructor
  · rw [get_monument_char, List.length_map]
  · intro out hout
    rw [get_monument_char] at hout
    rcases List.mem_map.mp hout with ⟨m, hm, rfl⟩
    rcases List.mem_filter.mp hm with ⟨hm1, hm2⟩
    exact ⟨m, hm1, of_decide_eq_true hm2, rfl⟩

/-- Witness for C4 on the two-reason example: the query yields the
single row whose monument_reason is the two labels joined by the
comma-space separator. -/
theorem monument_agg_single_row_witness :
    ((outC4 ∈ get_monument_by_object_id dbC4 1) ∧
      ∃ m, m ∈ dbC4.sh_monuments ∧ m.id = 1 ∧
        outC4 = mkMonumentOut m (monumentReasonAgg dbC4 m.id)) ∧
    monumentReasonAgg dbC4 1 = some "Fire damage, Historic facade" :=
  ⟨⟨List.Mem.head _, (monument_agg_single_row dbC4 1).2 outC4 (.head _)⟩,
   rfl⟩

/-- C5: every caller-supplied parameter is carried as bound data beside
an unchanged SQL text — for the monument query the statement text is
the fixed template whatever the value, and (modelled from the spec for
the service module absent from src/) the same holds for every service
query. -/
theorem parameter_binding_injection_safe :
    (∀ a b : Int, (monument_stmt a).text = (monument_stmt b).text) ∧
    (∀ object_id : Int,
        (monument_stmt object_id).text = monument_sql_text ∧
        (monument_stmt object_id).params =
          [("q", SqlParam.pint object_id)]) ∧
    (∀ (sq : ServiceQuery) (ps ps' : List (String × SqlParam)),
        (service_bind sq ps).text = sq.template ∧
        (service_bind sq ps).text = (service_bind sq ps').text) :=
  ⟨fun _ _ => rfl, fun _ => ⟨rfl, rfl⟩, fun _ _ _ => ⟨rfl, rfl⟩⟩

/-- C6: every singular handler that indexes the encoded row sequence
returns exactly the first row as the 200 body, and rows after the first
never influence the response. -/
theorem singular_first_row_convention {α : Type} (r : α)
    (rest other : List α) (d : DistrictRow) (ds ds' : List DistrictRow) :
    get_parcel_meta (r :: rest) = .ok r ∧
    get_biotop_meta (r :: rest) = .ok r ∧
    get_biotop_origin (r :: rest) = .ok r ∧
    get_monuments (r :: rest) = .ok r ∧
    get_accident_meta (r :: rest) = .ok r ∧
    get_accident_details_by_city (r :: rest) = .ok r ∧
    get_district_details (r :: rest) = .ok r ∧
    get_parcel_meta (r :: rest) = get_parcel_meta (r :: other) ∧
    get_monuments (r :: rest) = get_monuments (r :: other) ∧
    get_district (service_get_district (d :: ds)) =
      .ok (.arrBody [⟨d.id, d.name⟩]) ∧
    get_district (service_get_district (d :: ds)) =
      get_district (service_get_district (d :: ds')) :=
  ⟨rfl, rfl, rfl, rfl, rfl, rfl, rfl, rfl, rfl, rfl, rfl⟩

/-- C7: collection handlers answer zero rows with status 200 and the
empty JSON array, never an HTTP error. -/
theorem collection_zero_rows_ok :
    get_districts [] = .ok [] ∧
    get_residents_by_district [] = .ok [] ∧
    (∀ s d, get_districts [] ≠ .httpError s d) ∧
    (∀ s d, get_residents_by_district [] ≠ .httpError s d) :=
  ⟨rfl, rfl, fun _ _ h => HttpResult.noConfusion h,
   fun _ _ h => HttpResult.noConfusion h⟩

/-- C8: the geojson field of every row the monument query returns is
the GeoJSON serialization of that monument's geometry at the fixed
coordinate precision of 15 decimal digits. -/
theorem monument_geojson_precision (db : MonumentDB) (q : Int) :
    ∀ out ∈ get_monument_by_object_id db q,
      ∃ m, m ∈ db.sh_monuments ∧
        out.geojson = ST_AsGeoJSON m.wkb_geometry 15 := by
  intro out hout
  rw [get_monument_char] at hout
  rcases List.mem_map.mp hout with ⟨m, hm, rfl⟩
  exact ⟨m, (List.mem_filter.mp hm).1, rfl⟩

/-- Witness for C8 at a concrete snapshot and output row. -/
theorem monument_geojson_precision_witness :
    (mkMonumentOut geoMonument none ∈ get_monument_by_object_id dbC8 3) ∧
    ∃ m, m ∈ dbC8.sh_monuments ∧
      (mkMonumentOut geoMonument none).geojson =
        ST_AsGeoJSON m.wkb_geometry 15 :=
  ⟨List.Mem.head _,
   monument_geojson_precision dbC8 3 (mkMonumentOut geoMonument none)
     (.head _)⟩

/-- C9: on every process start, the startup routine first drops all
tables of the declared metadata and then recreates them, in that order,
before any request is served. -/
theorem startup_drops_then_creates (requests : List Nat) :
    process_run requests =
      ProcessEvent.schema .drop_all :: ProcessEvent.schema .create_all ::
        requests.map ProcessEvent.serve :=
  rfl

/-- C10: a monument whose id matches the lookup but joins zero reason
rows is still returned by the LEFT JOIN, its monument_reason field
being NULL. -/
theorem monument_without_reasons_kept (db : MonumentDB) (q : Int)
    (m : MonumentRow) (h1 : m ∈ db.sh_monuments) (h2 : m.id = q)
    (h3 : reasonLabelsFor db m.id = []) :
    mkMonumentOut m none ∈ get_monument_by_object_id db q := by
  rw [get_monument_char]
  have hagg : monumentReasonAgg db m.id = none := by
    unfold monumentReasonAgg
    rw [h3]
  refine List.mem_map.mpr ⟨m, ?_, by rw [hagg]⟩
  exact List.mem_filter.mpr ⟨h1, by simp [h2]⟩

/-- Witness for C10 at the snapshot whose single monument has no
reason rows. -/
theorem monument_without_reasons_kept_witness :
    (lonelyMonument ∈ dbC10.sh_monuments ∧ lonelyMonument.id = 2 ∧
      reasonLabelsFor dbC10 lonelyMonument.id = []) ∧
    mkMonumentOut lonelyMonument none ∈ get_monument_by_object_id dbC10 2 :=
  ⟨⟨by decide, rfl, rfl⟩,
   monument_without_reasons_kept dbC10 2 lonelyMonument (by decide) rfl rfl⟩
